import Mathlib

/-!
Verification development for the cdflow-commands state-backend and
deployment-monitor subsystems.

The Python modules are shallowly embedded: every AWS client is replaced by a
record of total functions describing the responses the code would receive, and
each Python method becomes a pure Lean function over that record.  Python
exceptions are modelled by an `Except PyError` result; Python byte strings by
`List Nat`; Python unicode strings by Lean `String` (whose `data : List Char`
matches Python's code-point indexing and `len`).
-/

set_option autoImplicit false
set_option maxRecDepth 40000

/-- Python exception classes raised (or named by the specification) in the
embedded code.  `multipleBucketsError` and `unknownEnvironmentError` are named
only by the specification: no code under `cdflow_commands` raises them, they
are included so that the specification's statements are expressible. -/
inductive PyError where
  | clientError (code : String)
  | assertionError (msg : String)
  | exception (msg : String)
  | keyError (key : String)
  | indexError
  | stopIteration
  | missingTagError (msg : String)
  | incorrectSchemaError (msg : String)
  | imageDoesNotMatchError
  | multipleBucketsError
  | unknownEnvironmentError
  deriving DecidableEq, Repr

/-- Decidable equality of `Except` results, used to evaluate the embedded
functions on concrete inputs. -/
instance {e a : Type} [DecidableEq e] [DecidableEq a] : DecidableEq (Except e a) := fun x y =>
  match x, y with
  | .error u, .error v =>
      if h : u = v then isTrue (by subst h; rfl)
      else isFalse (fun hc => by cases hc; exact h rfl)
  | .error _, .ok _ => isFalse (fun hc => Except.noConfusion hc)
  | .ok _, .error _ => isFalse (fun hc => Except.noConfusion hc)
  | .ok u, .ok v =>
      if h : u = v then isTrue (by subst h; rfl)
      else isFalse (fun hc => by cases hc; exact h rfl)

/-! ### SHA-1 (`hashlib.sha1`)

Both `cdflow_commands.terragrunt.S3BucketFactory._generate_bucket_name` and
`cdflow_commands.ecs_monitor.build_service_name` call `hashlib.sha1` on the
UTF-8 encoding of a string and use a prefix of the lowercase hex digest.  The
algorithm is implemented here over `Nat` with explicit reduction mod `2 ^ 32`.
-/

/-- Left-rotation of a 32-bit word. -/
def rotl32 (k x : Nat) : Nat :=
  ((x <<< k) ||| (x >>> (32 - k))) % 2 ^ 32

/-- Big-endian byte encoding of `n` in `numBytes` bytes. -/
def natToBytesBE (numBytes n : Nat) : List Nat :=
  (List.range numBytes).map (fun i => (n >>> (8 * (numBytes - 1 - i))) % 256)

/-- SHA-1 padding: append `0x80`, zero bytes, and the 64-bit big-endian bit
length so the total length is a multiple of 64 bytes. -/
def sha1Pad (msg : List Nat) : List Nat :=
  let padLen := (64 - ((msg.length + 9) % 64)) % 64
  msg ++ [0x80] ++ List.replicate padLen 0 ++ natToBytesBE 8 (msg.length * 8)

/-- Combine groups of four bytes into big-endian 32-bit words. -/
def bytesToWords : List Nat → List Nat
  | b0 :: b1 :: b2 :: b3 :: rest =>
      ((b0 <<< 24) ||| (b1 <<< 16) ||| (b2 <<< 8) ||| b3) :: bytesToWords rest
  | _ => []

/-- Message-schedule extension: starting from the 16 chunk words (held in
reverse order in `acc`), produce `n` further words, each the 1-bit left
rotation of the xor of the words 3, 8, 14 and 16 positions back. -/
def sha1ExtendWords (acc : List Nat) : Nat → List Nat
  | 0 => acc.reverse
  | n + 1 =>
      let w := rotl32 1 ((acc.getD 2 0) ^^^ (acc.getD 7 0) ^^^
        (acc.getD 13 0) ^^^ (acc.getD 15 0))
      sha1ExtendWords (w :: acc) n

/-- One SHA-1 round: round index `i`, schedule word `w`, state `(a,b,c,d,e)`. -/
def sha1Round (st : Nat × Nat × Nat × Nat × Nat) (iw : Nat × Nat) :
    Nat × Nat × Nat × Nat × Nat :=
  let (a, b, c, d, e) := st
  let (i, w) := iw
  let f :=
    if i < 20 then (b &&& c) ||| ((b ^^^ 0xFFFFFFFF) &&& d)
    else if i < 40 then b ^^^ c ^^^ d
    else if i < 60 then (b &&& c) ||| (b &&& d) ||| (c &&& d)
    else b ^^^ c ^^^ d
  let k :=
    if i < 20 then 0x5A827999
    else if i < 40 then 0x6ED9EBA1
    else if i < 60 then 0x8F1BBCDC
    else 0xCA62C1D6
  let temp := (rotl32 5 a + f + e + k + w) % 2 ^ 32
  (temp, a, rotl32 30 b, c, d)

/-- Process one 64-byte chunk, updating the five 32-bit state words. -/
def sha1Chunk (h : Nat × Nat × Nat × Nat × Nat) (chunk : List Nat) :
    Nat × Nat × Nat × Nat × Nat :=
  let ws := sha1ExtendWords (bytesToWords chunk).reverse 64
  let (h0, h1, h2, h3, h4) := h
  let (a, b, c, d, e) := ws.enum.foldl sha1Round h
  ((h0 + a) % 2 ^ 32, (h1 + b) % 2 ^ 32, (h2 + c) % 2 ^ 32,
   (h3 + d) % 2 ^ 32, (h4 + e) % 2 ^ 32)

/-- Fold `sha1Chunk` over successive 64-byte chunks; the `Nat` argument is
fuel bounding the number of chunks (each step consumes at least one byte, so
the byte count is always enough fuel). -/
def sha1ChunksGo (h : Nat × Nat × Nat × Nat × Nat) :
    Nat → List Nat → Nat × Nat × Nat × Nat × Nat
  | _, [] => h
  | 0, _ :: _ => h
  | n + 1, b :: rest =>
      sha1ChunksGo (sha1Chunk h ((b :: rest).take 64)) n ((b :: rest).drop 64)

/-- Fold `sha1Chunk` over all 64-byte chunks of the padded message. -/
def sha1Chunks (h : Nat × Nat × Nat × Nat × Nat) (l : List Nat) :
    Nat × Nat × Nat × Nat × Nat :=
  sha1ChunksGo h l.length l

/-- Lowercase hex digit for a value below 16. -/
def hexDigit (n : Nat) : Char :=
  if n < 10 then Char.ofNat ('0'.toNat + n) else Char.ofNat ('a'.toNat + n - 10)

/-- Eight lowercase hex digits of a 32-bit word, most significant first. -/
def wordToHex (w : Nat) : List Char :=
  (List.range 8).map (fun i => hexDigit ((w >>> (4 * (7 - i))) % 16))

/-- `hashlib.sha1(msg).hexdigest()` for a byte string `msg`: the 40-character
lowercase hex digest. -/
def sha1hexdigest (msg : List Nat) : List Char :=
  let (a, b, c, d, e) :=
    sha1Chunks (0x67452301, 0xEFCDAB89, 0x98BADCFE, 0x10325476, 0xC3D2E1F0)
      (sha1Pad msg)
  wordToHex a ++ wordToHex b ++ wordToHex c ++ wordToHex d ++ wordToHex e

/-- UTF-8 encoding of one code point (Python `str.encode('utf-8')`). -/
def utf8EncodeChar (c : Char) : List Nat :=
  let n := c.toNat
  if n < 0x80 then [n]
  else if n < 0x800 then
    [0xC0 ||| (n >>> 6), 0x80 ||| (n &&& 0x3F)]
  else if n < 0x10000 then
    [0xE0 ||| (n >>> 12), 0x80 ||| ((n >>> 6) &&& 0x3F), 0x80 ||| (n &&& 0x3F)]
  else
    [0xF0 ||| (n >>> 18), 0x80 ||| ((n >>> 12) &&& 0x3F),
     0x80 ||| ((n >>> 6) &&& 0x3F), 0x80 ||| (n &&& 0x3F)]

/-- UTF-8 encoding of a string. -/
def utf8Encode (s : List Char) : List Nat :=
  (s.map utf8EncodeChar).flatten

/-- `sha1(s.encode('utf-8')).hexdigest()` as a list of characters. -/
def sha1hex (s : String) : List Char :=
  sha1hexdigest (utf8Encode s.data)


/-! ### `cdflow_commands.terragrunt` — `S3BucketFactory`

The S3 client is replaced by a record of total response functions.  Buckets
from `list_buckets` are a list of names; Python's set comprehension over them
is modelled by `List.dedup` (the set of distinct names).  `get_bucket_tagging`
either returns a tag set or raises a `ClientError` with an error code;
`get_bucket_location` returns an optional location constraint (`None` is a
real S3 response for the us-east-1 region); `create_bucket` either succeeds
(`none`) or raises a `ClientError` with the given code.
-/

/-- Responses of the boto3 S3 client used by `S3BucketFactory`. -/
structure S3Api where
  buckets : List String
  taggingResult : String → Except String (List (String × String))
  locationConstraint : String → Option String
  createOutcome : String → Option String

/-- `terragrunt.TAG_NAME`. -/
def TAG_NAME : String := "is-cdflow-tfstate-bucket"

/-- `terragrunt.TAG_VALUE`. -/
def TAG_VALUE : String := "true"

/-- `terragrunt.NAME_PREFIX`. -/
def NAME_PREFIX : String := "cdflow-tfstate"

/-- `terragrunt.MAX_CREATION_ATTEMPTS`. -/
def MAX_CREATION_ATTEMPTS : Nat := 10

/-- Python `str(x)` for an optional string (`str(None) = "None"`), as applied
to `self._aws_region` which may be `None` on a session with no region. -/
def pyStrOfOpt : Option String → String
  | none => "None"
  | some s => s

/-- Python dict built from a list of pairs (`{k: v for ...}`, later keys win)
followed by `.get(k)`. -/
def pyDictGet (pairs : List (String × String)) (k : String) : Option String :=
  (pairs.reverse.find? (fun p => p.1 == k)).map (·.2)

/-- `S3BucketFactory._get_bucket_tags`: fetch the tag set, treating a
`NoSuchTagSet` client error as an empty dict and re-raising anything else. -/
def _get_bucket_tags (api : S3Api) (bucket_name : String) :
    Except PyError (List (String × String)) :=
  match api.taggingResult bucket_name with
  | .ok tags => .ok tags
  | .error code =>
      if code == "NoSuchTagSet" then .ok [] else .error (.clientError code)

/-- `S3BucketFactory._bucket_has_tag`: the tag dict maps `TAG_NAME` to
`TAG_VALUE`. -/
def _bucket_has_tag (api : S3Api) (bucket_name : String) : Except PyError Bool := do
  let tags ← _get_bucket_tags api bucket_name
  pure (pyDictGet tags TAG_NAME == some TAG_VALUE)

/-- `S3BucketFactory._bucket_in_current_region`: the bucket's reported
location constraint equals `self._aws_region` (both possibly `None`; Python
compares them directly with `==`). -/
def _bucket_in_current_region (api : S3Api) (aws_region : Option String)
    (bucket_name : String) : Bool :=
  api.locationConstraint bucket_name == aws_region

/-- Effectful filter: Python evaluates the predicate per element and the first
raise propagates. -/
def filterExcept (p : String → Except PyError Bool) :
    List String → Except PyError (List String)
  | [] => .ok []
  | b :: rest => do
      let keep ← p b
      let others ← filterExcept p rest
      pure (if keep then b :: others else others)

/-- The set comprehension in `get_bucket_name` producing `tagged_buckets`:
distinct listed buckets that carry the sentinel tag and sit in the session's
region (`and` short-circuits, so the region check runs only on tagged
buckets, which is observationally equal to this unconditional form). -/
def tagged_buckets (api : S3Api) (aws_region : Option String) :
    Except PyError (List String) :=
  filterExcept
    (fun b => do
      let hasTag ← _bucket_has_tag api b
      pure (hasTag && _bucket_in_current_region api aws_region b))
    api.buckets.dedup

/-- `S3BucketFactory._generate_bucket_name`: hash of
`str(region) + str(account_id) + str(attempt)`, truncated to 12 hex
characters and prefixed with `NAME_PREFIX` and a dash. -/
def _generate_bucket_name (aws_region : Option String) (account_id : String)
    (attempt : Nat) : String :=
  NAME_PREFIX ++ "-" ++
    ((sha1hex (pyStrOfOpt aws_region ++ account_id ++ toString attempt)).take 12).asString

/-- `S3BucketFactory._attempt_to_create_bucket`: success gives `True`; a
`BucketAlreadyExists` or `BucketAlreadyOwnedByYou` client error gives `False`;
any other client error is re-raised. -/
def _attempt_to_create_bucket (api : S3Api) (bucket_name : String) :
    Except PyError Bool :=
  match api.createOutcome bucket_name with
  | none => .ok true
  | some code =>
      if code == "BucketAlreadyExists" || code == "BucketAlreadyOwnedByYou" then
        .ok false
      else .error (.clientError code)

/-- The `for attempt in range(MAX_CREATION_ATTEMPTS)` loop of
`S3BucketFactory._create_bucket`, over the list of remaining attempt
numbers. -/
def _create_bucket_go (api : S3Api) (aws_region : Option String)
    (account_id : String) : List Nat → Except PyError String
  | [] => .error (.exception "could not create bucket after 10 attempts")
  | attempt :: rest => do
      let bucket_name := _generate_bucket_name aws_region account_id attempt
      let ok ← _attempt_to_create_bucket api bucket_name
      if ok then pure bucket_name
      else _create_bucket_go api aws_region account_id rest

/-- `S3BucketFactory._create_bucket`. -/
def _create_bucket (api : S3Api) (aws_region : Option String)
    (account_id : String) : Except PyError String :=
  _create_bucket_go api aws_region account_id (List.range MAX_CREATION_ATTEMPTS)

/-- `S3BucketFactory.get_bucket_name`.  The `assert len(tagged_buckets) <= 1`
raises `AssertionError` with the stripped, formatted message; with exactly one
qualifying bucket its name is returned; with none a bucket is created (the
subsequent `_tag_bucket` call has no bearing on the returned name). -/
def get_bucket_name (api : S3Api) (aws_region : Option String)
    (account_id : String) : Except PyError String := do
  let tb ← tagged_buckets api aws_region
  if tb.length > 1 then
    .error (.assertionError
      "multiple buckets with is-cdflow-tfstate-bucket=true tag found")
  else if tb.length == 1 then
    pure (tb.headD "")
  else do
    let bucket_name ← _create_bucket api aws_region account_id
    pure bucket_name

/-! ### Helper lemmas -/

/-- A list containing two distinct elements has length at least two. -/
theorem two_le_length_of_mem_of_mem {α : Type} {l : List α} {a b : α}
    (ha : a ∈ l) (hb : b ∈ l) (hne : a ≠ b) : 2 ≤ l.length := by
  match l with
  | [] => cases ha
  | [x] =>
      simp only [List.mem_singleton] at ha hb
      exact absurd (ha.trans hb.symm) hne
  | x :: y :: t => simp only [List.length]; omega

/-- Splitting `List.range n` at a position `j < n`. -/
theorem range_split (n j : Nat) (h : j < n) :
    List.range n =
      List.range j ++ j :: (List.range (n - j - 1)).map (fun i => j + 1 + i) := by
  have hn : n = j + (n - j - 1 + 1) := by omega
  have hfun : ((fun b => j + b) ∘ Nat.succ) = (fun i => j + 1 + i) := by
    funext i
    simp only [Function.comp]
    omega
  conv_lhs => rw [hn]
  rw [List.range_add, List.range_succ_eq_map, List.map_cons, List.map_map,
    hfun, Nat.add_zero]

/-- Hypothesis form used for the retry loop: creation of this bucket name
reported a "name already exists" error, owned by the caller or not. -/
def alreadyExistsOutcome (api : S3Api) (name : String) : Prop :=
  api.createOutcome name = some "BucketAlreadyExists" ∨
  api.createOutcome name = some "BucketAlreadyOwnedByYou"

/-- If every attempt in `pres` collides and attempt `j` succeeds, the loop
returns the candidate name of attempt `j`. -/
theorem create_bucket_go_succeeds (api : S3Api) (aws_region : Option String)
    (account_id : String) (pres : List Nat) (j : Nat) (rest : List Nat)
    (hpre : ∀ k ∈ pres, alreadyExistsOutcome api (_generate_bucket_name aws_region account_id k))
    (hj : api.createOutcome (_generate_bucket_name aws_region account_id j) = none) :
    _create_bucket_go api aws_region account_id (pres ++ j :: rest) =
      .ok (_generate_bucket_name aws_region account_id j) := by
  induction pres with
  | nil =>
      simp [_create_bucket_go, _attempt_to_create_bucket, hj, Bind.bind, Except.bind, pure, Except.pure]
  | cons a pres ih =>
      have ha := hpre a (List.mem_cons_self a pres)
      have hrest : ∀ k ∈ pres, alreadyExistsOutcome api (_generate_bucket_name aws_region account_id k) :=
        fun k hk => hpre k (List.mem_cons_of_mem a hk)
      rcases ha with ha | ha <;>
        simp [_create_bucket_go, _attempt_to_create_bucket, ha, ih hrest,
          Bind.bind, Except.bind, pure, Except.pure]

/-- If every attempt in the list collides, the loop exhausts it and raises. -/
theorem create_bucket_go_all_fail (api : S3Api) (aws_region : Option String)
    (account_id : String) (l : List Nat)
    (hall : ∀ k ∈ l, alreadyExistsOutcome api (_generate_bucket_name aws_region account_id k)) :
    _create_bucket_go api aws_region account_id l =
      .error (.exception "could not create bucket after 10 attempts") := by
  induction l with
  | nil => simp [_create_bucket_go]
  | cons a l ih =>
      have ha := hall a (List.mem_cons_self a l)
      have hrest : ∀ k ∈ l, alreadyExistsOutcome api (_generate_bucket_name aws_region account_id k) :=
        fun k hk => hall k (List.mem_cons_of_mem a hk)
      rcases ha with ha | ha <;>
        simp [_create_bucket_go, _attempt_to_create_bucket, ha, ih hrest,
          Bind.bind, Except.bind, pure, Except.pure]

/-- C1: when no qualifying tagged bucket exists, `get_bucket_name` defers to
`_create_bucket`; the candidate name of attempt `n` is `cdflow-tfstate-`
followed by the first 12 hex characters of the SHA-1 of
`region + account_id + n`; the loop skips "already exists" collisions (owned
by the caller or not), returns the first candidate that succeeds, and fails
fatally after `MAX_CREATION_ATTEMPTS = 10` collisions. -/
theorem s3_create_bucket_deterministic_retry
    (api : S3Api) (aws_region : Option String) (account_id : String) :
    (tagged_buckets api aws_region = .ok [] →
      get_bucket_name api aws_region account_id = _create_bucket api aws_region account_id) ∧
    (∀ n, _generate_bucket_name aws_region account_id n =
      "cdflow-tfstate-" ++
        ((sha1hex (pyStrOfOpt aws_region ++ account_id ++ toString n)).take 12).asString) ∧
    (∀ j, j < MAX_CREATION_ATTEMPTS →
      (∀ k, k < j → alreadyExistsOutcome api (_generate_bucket_name aws_region account_id k)) →
      api.createOutcome (_generate_bucket_name aws_region account_id j) = none →
      _create_bucket api aws_region account_id =
        .ok (_generate_bucket_name aws_region account_id j)) ∧
    ((∀ k, k < MAX_CREATION_ATTEMPTS →
        alreadyExistsOutcome api (_generate_bucket_name aws_region account_id k)) →
      _create_bucket api aws_region account_id =
        .error (.exception "could not create bucket after 10 attempts")) := by
  refine ⟨?_, ?_, ?_, ?_⟩
  · intro htb
    simp only [get_bucket_name, htb, Bind.bind, Except.bind, pure, Except.pure,
      List.length_nil, Nat.lt_irrefl, if_false]
    norm_num
    cases _create_bucket api aws_region account_id <;> rfl
  · intro n
    rfl
  · intro j hj hpre hsucc
    unfold _create_bucket
    rw [range_split MAX_CREATION_ATTEMPTS j hj]
    exact create_bucket_go_succeeds api aws_region account_id (List.range j) j _
      (fun k hk => hpre k (List.mem_range.mp hk)) hsucc
  · intro hall
    exact create_bucket_go_all_fail api aws_region account_id _
      (fun k hk => hall k (List.mem_range.mp hk))

/-- C2 (amended): with at least two distinct qualifying tagged, same-region
buckets, `get_bucket_name` fails with Python's built-in `AssertionError` (from
the bare `assert len(tagged_buckets) <= 1`), returning no bucket name and
reaching no creation call. -/
theorem s3_multiple_tagged_buckets_assertion
    (api : S3Api) (aws_region : Option String) (account_id : String)
    (tb : List String) (b1 b2 : String)
    (htb : tagged_buckets api aws_region = .ok tb)
    (h1 : b1 ∈ tb) (h2 : b2 ∈ tb) (hne : b1 ≠ b2) :
    get_bucket_name api aws_region account_id =
      .error (.assertionError
        "multiple buckets with is-cdflow-tfstate-bucket=true tag found") := by
  have hlen : 2 ≤ tb.length := two_le_length_of_mem_of_mem h1 h2 hne
  simp only [get_bucket_name, htb, Bind.bind, Except.bind]
  rw [if_pos (by omega)]

/-- Concrete S3 responses with two tagged buckets in the session's region. -/
def c2Api : S3Api where
  buckets := ["state-bucket", "another-state-bucket"]
  taggingResult := fun _ => .ok [(TAG_NAME, TAG_VALUE)]
  locationConstraint := fun _ => some "dummy-region-name"
  createOutcome := fun _ => none

/-- C2 counterexample: with two qualifying buckets the code raises the
built-in `AssertionError`; no `MultipleBucketsError` exception exists in
`cdflow_commands.terragrunt`, so the failure is not that error. -/
theorem s3_multiple_buckets_error_name_counterexample :
    get_bucket_name c2Api (some "dummy-region-name") "123456789" =
      .error (.assertionError
        "multiple buckets with is-cdflow-tfstate-bucket=true tag found") ∧
    get_bucket_name c2Api (some "dummy-region-name") "123456789" ≠
      .error .multipleBucketsError := by
  constructor <;> decide

/-- Witness for `s3_multiple_tagged_buckets_assertion` at concrete input. -/
theorem s3_multiple_tagged_buckets_assertion_witness :
    tagged_buckets c2Api (some "dummy-region-name") =
        .ok ["state-bucket", "another-state-bucket"] ∧
    get_bucket_name c2Api (some "dummy-region-name") "123456789" =
      .error (.assertionError
        "multiple buckets with is-cdflow-tfstate-bucket=true tag found") :=
  ⟨by decide,
   s3_multiple_tagged_buckets_assertion c2Api (some "dummy-region-name")
     "123456789" ["state-bucket", "another-state-bucket"]
     "state-bucket" "another-state-bucket"
     (by decide) (by decide) (by decide) (by decide)⟩

/-- C8 (amended): `_bucket_in_current_region` compares the reported location
constraint to the session region verbatim, so a `None` constraint never
matches a concrete region (us-east-1 included) and such a bucket does not
qualify; when exactly one bucket qualifies its name is returned. -/
theorem s3_region_filter_exact_match
    (api : S3Api) (aws_region : Option String) (account_id : String) :
    (∀ b r, api.locationConstraint b = none → aws_region = some r →
      _bucket_in_current_region api aws_region b = false) ∧
    (∀ b, tagged_buckets api aws_region = .ok [b] →
      get_bucket_name api aws_region account_id = .ok b) := by
  constructor
  · intro b r hb hr
    subst hr
    simp [_bucket_in_current_region, hb]
  · intro b htb
    simp [get_bucket_name, htb, Bind.bind, Except.bind, pure, Except.pure]

/-- Concrete S3 responses: one tagged bucket whose location constraint is
reported as `None`, a session region of `us-east-1`. -/
def c8Api : S3Api where
  buckets := ["dummy-bucket-name"]
  taggingResult := fun _ => .ok [(TAG_NAME, TAG_VALUE)]
  locationConstraint := fun _ => none
  createOutcome := fun _ => none

/-- C8 counterexample: under `cdflow_commands.terragrunt`, a tagged bucket
with a `None` location constraint does not qualify when the session region is
`us-east-1` — the qualifying set is empty and `get_bucket_name` does not
return the existing bucket (it proceeds to create a fresh name). -/
theorem s3_none_location_constraint_counterexample :
    _bucket_has_tag c8Api "dummy-bucket-name" = .ok true ∧
    c8Api.locationConstraint "dummy-bucket-name" = none ∧
    tagged_buckets c8Api (some "us-east-1") = .ok [] ∧
    get_bucket_name c8Api (some "us-east-1") "123456789" ≠
      .ok "dummy-bucket-name" := by
  refine ⟨by decide, rfl, by decide, by decide⟩

/-- Concrete S3 responses with one qualifying bucket `b1` (region matches)
and one unqualifying bucket `b2` (location constraint `None`). -/
def c8WitnessApi : S3Api where
  buckets := ["b1", "b2"]
  taggingResult := fun b => if b == "b1" then .ok [(TAG_NAME, TAG_VALUE)] else .ok []
  locationConstraint := fun b => if b == "b1" then some "eu-west-1" else none
  createOutcome := fun _ => none

/-- Witness for `s3_region_filter_exact_match` at concrete input. -/
theorem s3_region_filter_exact_match_witness :
    _bucket_in_current_region c8WitnessApi (some "eu-west-1") "b2" = false ∧
    get_bucket_name c8WitnessApi (some "eu-west-1") "123456789" = .ok "b1" :=
  ⟨(s3_region_filter_exact_match c8WitnessApi (some "eu-west-1") "123456789").1
      "b2" "eu-west-1" (by decide) rfl,
   (s3_region_filter_exact_match c8WitnessApi (some "eu-west-1") "123456789").2
      "b1" (by decide)⟩

/-- Concrete S3 responses: no buckets; creating the attempt-0 candidate name
collides ("already exists"), the next candidate succeeds. -/
def c1Api : S3Api where
  buckets := []
  taggingResult := fun _ => .error "NoSuchTagSet"
  locationConstraint := fun _ => none
  createOutcome := fun n =>
    if n == _generate_bucket_name (some "eu-west-1") "123456789012" 0 then
      some "BucketAlreadyExists"
    else none

/-- Witness for `s3_create_bucket_deterministic_retry` at concrete input:
attempt 0 collides, attempt 1 succeeds and its candidate name is returned. -/
theorem s3_create_bucket_deterministic_retry_witness :
    (1 : Nat) < MAX_CREATION_ATTEMPTS ∧
    _create_bucket c1Api (some "eu-west-1") "123456789012" =
      .ok (_generate_bucket_name (some "eu-west-1") "123456789012" 1) :=
  ⟨by decide,
   (s3_create_bucket_deterministic_retry c1Api (some "eu-west-1")
       "123456789012").2.2.1 1 (by decide)
     (fun k hk => by
       have hk0 : k = 0 := by omega
       subst hk0
       exact Or.inl (by decide))
     (by decide)⟩

/-! ### `cdflow_commands.terragrunt` — `LockTableFactory`

The DynamoDB client is replaced by a record of responses, and every client
call the code performs is recorded in an emitted call trace, so that the
creation path's requests (key schema, throughput, tag, wait) are visible in
the theorems. -/

/-- The part of a `describe_table` response the code reads. -/
structure TableDescription where
  TableName : String
  TableArn : String
  AttributeDefinitions : List (String × String)
  deriving DecidableEq, Repr

/-- Responses of the boto3 DynamoDB client used by `LockTableFactory`:
`describe_table` either raises a `ClientError` with a code or returns a table
description; `list_tags_of_resource` returns the tag list for an ARN;
`createTableArn` is the `TableArn` in the `create_table` response. -/
structure DynamoApi where
  describeTable : String → Except String TableDescription
  listTagsOfResource : String → List (String × String)
  createTableArn : String

/-- One DynamoDB client call performed by the embedded code. -/
inductive DynamoCall where
  | describeTable (name : String)
  | listTagsOfResource (arn : String)
  | createTable (name : String) (attributeDefinitions : List (String × String))
      (keySchema : List (String × String)) (readCapacityUnits writeCapacityUnits : Nat)
  | tagResource (arn : String) (tags : List (String × String))
  | waitTableExists (name : String)
  deriving DecidableEq, Repr

/-- `LockTableFactory.TABLE_NAME`. -/
def LOCK_TABLE_NAME : String := "terraform_locks"

/-- `LockTableFactory.TAG_NAME`. -/
def LOCK_TAG_NAME : String := "cdflow_terraform_locks"

/-- `LockTableFactory.TAG_VALUE`. -/
def LOCK_TAG_VALUE : String := "true"

/-- `LockTableFactory._check_tag`: scan the resource's tags for the sentinel
pair, raising `MissingTagError` when absent. -/
def _check_tag (api : DynamoApi) (table_arn : String) : Except PyError Bool :=
  if (api.listTagsOfResource table_arn).any
      (fun t => t.1 == LOCK_TAG_NAME && t.2 == LOCK_TAG_VALUE) then
    .ok true
  else
    .error (.missingTagError ("No tag cdflow_terraform_locks found for " ++ table_arn))

/-- `LockTableFactory._check_schema`: scan the attribute definitions for one
named `LockID`, raising `IncorrectSchemaError` when absent. -/
def _check_schema (table_definition : TableDescription) : Except PyError Bool :=
  if table_definition.AttributeDefinitions.any (fun a => a.1 == "LockID") then
    .ok true
  else
    .error (.incorrectSchemaError "No attribute LockID in table")

/-- `LockTableFactory._try_to_get_table`: describe the table, check the tag
(first), then the schema, and return the described name.  The second
component is the trace of client calls performed. -/
def _try_to_get_table (api : DynamoApi) (table_name : String) :
    Except PyError String × List DynamoCall :=
  match api.describeTable table_name with
  | .error code => (.error (.clientError code), [.describeTable table_name])
  | .ok t =>
      let calls := [.describeTable table_name, .listTagsOfResource t.TableArn]
      match _check_tag api t.TableArn with
      | .error e => (.error e, calls)
      | .ok _ =>
          match _check_schema t with
          | .error e => (.error e, calls)
          | .ok _ => (.ok t.TableName, calls)

/-- `LockTableFactory._create_table`: create the table with the single
string hash key `LockID` and 1/1 provisioned throughput, tag it with the
sentinel tag, wait for `table_exists`, and return the name. -/
def lock_create_table (api : DynamoApi) (table_name : String) :
    String × List DynamoCall :=
  (table_name,
   [.createTable table_name [("LockID", "S")] [("LockID", "HASH")] 1 1,
    .tagResource api.createTableArn [(LOCK_TAG_NAME, LOCK_TAG_VALUE)],
    .waitTableExists table_name])

/-- `LockTableFactory.get_table_name`: try the fixed name; on a
`ResourceNotFoundException` client error create the table; re-raise any other
client error; domain errors (`MissingTagError`, `IncorrectSchemaError`)
propagate because `except ClientError` does not catch them. -/
def get_table_name (api : DynamoApi) : Except PyError String × List DynamoCall :=
  match _try_to_get_table api LOCK_TABLE_NAME with
  | (.error (.clientError code), calls) =>
      if code == "ResourceNotFoundException" then
        let r := lock_create_table api LOCK_TABLE_NAME
        (.ok r.1, calls ++ r.2)
      else
        (.error (.clientError code), calls)
  | r => r

/-- C4 (amended): for `get_table_name` on the fixed table name — a found
table with the sentinel tag and a `LockID` attribute yields its name; a found
table without the sentinel tag fails with `MissingTagError` (the tag is
checked before the schema); a found, tagged table without a `LockID`
attribute fails with `IncorrectSchemaError`; a `ResourceNotFoundException`
triggers creation with exactly one string hash key `LockID`, 1 read / 1 write
unit, the sentinel tag and a wait-until-exists, returning the fixed name; any
other client error propagates unchanged. -/
theorem lock_table_resolution
    (api : DynamoApi) :
    (∀ t, api.describeTable LOCK_TABLE_NAME = .ok t →
      (api.listTagsOfResource t.TableArn).any
          (fun p => p.1 == LOCK_TAG_NAME && p.2 == LOCK_TAG_VALUE) = true →
      t.AttributeDefinitions.any (fun a => a.1 == "LockID") = true →
      get_table_name api = (.ok t.TableName,
        [.describeTable LOCK_TABLE_NAME, .listTagsOfResource t.TableArn])) ∧
    (∀ t, api.describeTable LOCK_TABLE_NAME = .ok t →
      (api.listTagsOfResource t.TableArn).any
          (fun p => p.1 == LOCK_TAG_NAME && p.2 == LOCK_TAG_VALUE) = false →
      (get_table_name api).1 = .error
        (.missingTagError ("No tag cdflow_terraform_locks found for " ++ t.TableArn))) ∧
    (∀ t, api.describeTable LOCK_TABLE_NAME = .ok t →
      (api.listTagsOfResource t.TableArn).any
          (fun p => p.1 == LOCK_TAG_NAME && p.2 == LOCK_TAG_VALUE) = true →
      t.AttributeDefinitions.any (fun a => a.1 == "LockID") = false →
      (get_table_name api).1 = .error
        (.incorrectSchemaError "No attribute LockID in table")) ∧
    (api.describeTable LOCK_TABLE_NAME = .error "ResourceNotFoundException" →
      get_table_name api = (.ok LOCK_TABLE_NAME,
        [.describeTable LOCK_TABLE_NAME,
         .createTable LOCK_TABLE_NAME [("LockID", "S")] [("LockID", "HASH")] 1 1,
         .tagResource api.createTableArn [(LOCK_TAG_NAME, LOCK_TAG_VALUE)],
         .waitTableExists LOCK_TABLE_NAME])) ∧
    (∀ code, code ≠ "ResourceNotFoundException" →
      api.describeTable LOCK_TABLE_NAME = .error code →
      (get_table_name api).1 = .error (.clientError code)) := by
  refine ⟨?_, ?_, ?_, ?_, ?_⟩
  · intro t hdesc htag hattr
    simp [get_table_name, _try_to_get_table, _check_tag, _check_schema,
      hdesc, htag, hattr]
  · intro t hdesc htag
    simp [get_table_name, _try_to_get_table, _check_tag, hdesc, htag]
  · intro t hdesc htag hattr
    simp [get_table_name, _try_to_get_table, _check_tag, _check_schema,
      hdesc, htag, hattr]
  · intro hdesc
    simp [get_table_name, _try_to_get_table, hdesc, lock_create_table]
  · intro code hcode hdesc
    simp [get_table_name, _try_to_get_table, hdesc, hcode]

/-- Concrete DynamoDB responses: the fixed table exists but carries neither
the sentinel tag nor a `LockID` attribute definition. -/
def c4Api : DynamoApi where
  describeTable := fun _ =>
    .ok { TableName := "terraform_locks",
          TableArn := "arn:aws:dynamodb:eu-west-1:123456789:table-terraform-locks",
          AttributeDefinitions := [("SomethingElse", "S")] }
  listTagsOfResource := fun _ => [("OtherTag", "true")]
  createTableArn := "arn:created"

/-- C4 counterexample: on a table that both lacks `LockID` and lacks the
sentinel tag, the code raises `MissingTagError` (the tag check runs first),
not the `IncorrectSchemaError` the claim requires for a missing `LockID`
attribute. -/
theorem lock_table_check_order_counterexample :
    (get_table_name c4Api).1 = .error
      (.missingTagError
        "No tag cdflow_terraform_locks found for arn:aws:dynamodb:eu-west-1:123456789:table-terraform-locks") ∧
    (get_table_name c4Api).1 ≠ .error
      (.incorrectSchemaError "No attribute LockID in table") := by
  constructor <;> decide

/-- Concrete DynamoDB responses for the creation path: describing the fixed
name reports `ResourceNotFoundException`. -/
def c4CreateApi : DynamoApi where
  describeTable := fun _ => .error "ResourceNotFoundException"
  listTagsOfResource := fun _ => []
  createTableArn := "arn:aws:dynamodb:eu-west-1:123456789:table-terraform-locks"

/-- Witness for `lock_table_resolution` at concrete input: the not-found
branch creates, tags and waits, returning the fixed name. -/
theorem lock_table_resolution_witness :
    get_table_name c4CreateApi = (.ok "terraform_locks",
      [.describeTable "terraform_locks",
       .createTable "terraform_locks" [("LockID", "S")] [("LockID", "HASH")] 1 1,
       .tagResource "arn:aws:dynamodb:eu-west-1:123456789:table-terraform-locks"
         [("cdflow_terraform_locks", "true")],
       .waitTableExists "terraform_locks"]) :=
  (lock_table_resolution c4CreateApi).2.2.2.1 rfl

/-! ### `cdflow_commands.ecs_monitor`

`build_service_name` is pure.  For `ECSEventIterator`, the ECS client is
replaced by a record of responses (per poll); `__next__` becomes a function
of the iterator's `_done` latch returning either an event together with the
new latch value, or a raised exception, plus the trace of client calls it
performed.  The `lru_cache` on `_get_release_image` is not modelled: it only
avoids repeating the `describe_task_definition` call across polls for the
same ARN and no observable result in these claims depends on it. -/

/-- `ecs_monitor.build_service_name`: join environment and component with a
dash; when longer than 32 code points, collapse to the first 24, the literal
`tf`, and the first 4 hex characters of the SHA-1 of the full name. -/
def build_service_name (environment component : String) : String :=
  let service_name := environment ++ "-" ++ component
  if service_name.length > 32 then
    (service_name.data.take 24 ++ 't' :: 'f' :: (sha1hex service_name).take 4).asString
  else
    service_name

/-- A deployment descriptor from `describe_services`. -/
structure EcsDeployment where
  status : String
  taskDefinition : String
  runningCount : Nat
  desiredCount : Nat
  deriving DecidableEq, Repr

/-- A service descriptor from `describe_services`. -/
structure EcsService where
  deployments : List EcsDeployment
  deriving DecidableEq, Repr

/-- A container definition from `describe_task_definition`. -/
structure EcsContainerDefinition where
  image : String
  deriving DecidableEq, Repr

/-- A task definition from `describe_task_definition`. -/
structure EcsTaskDefinition where
  containerDefinitions : List EcsContainerDefinition
  deriving DecidableEq, Repr

/-- Responses of the boto3 ECS client during one poll: the `services` list of
the `describe_services` response, and `describe_task_definition` by ARN. -/
structure EcsApi where
  services : List EcsService
  taskDefinition : String → EcsTaskDefinition

/-- One ECS client call performed during a poll. -/
inductive EcsCall where
  | describeServices
  | describeTaskDefinition (arn : String)
  deriving DecidableEq, Repr

/-- Python list indexing: `l[i]` raises `IndexError` out of range. -/
def pyIndex {α : Type} (l : List α) (i : Nat) : Except PyError α :=
  match l.get? i with
  | some x => .ok x
  | none => .error .indexError

/-- The events produced by the monitor (`DoneEvent` / `InProgressEvent`). -/
inductive ECSEvent where
  | done (running desired : Nat)
  | inProgress (running desired : Nat)
  deriving DecidableEq, Repr

/-- The `done` attribute of an event object. -/
def ECSEvent.doneFlag : ECSEvent → Bool
  | .done _ _ => true
  | .inProgress _ _ => false

/-- `ECSEventIterator._get_primary_deployment`:
`services['services'][0]['deployments']` filtered to status `PRIMARY`, then
indexed at 0. -/
def _get_primary_deployment (api : EcsApi) : Except PyError EcsDeployment := do
  let svc ← pyIndex api.services 0
  pyIndex (svc.deployments.filter (fun d => d.status == "PRIMARY")) 0

/-- Python `str.split(sep)` for a one-character separator, over the string's
code points (`''.split('/') = ['']`, separators at either end produce empty
parts). -/
def pySplitChar (sep : Char) : List Char → List (List Char)
  | [] => [[]]
  | c :: rest =>
      match pySplitChar sep rest with
      | [] => [[]]
      | h :: t => if c == sep then [] :: h :: t else (c :: h) :: t

/-- `ECSEventIterator._get_release_image`: first container definition of the
task definition, image split on `/`, second component. -/
def _get_release_image (api : EcsApi) (task_definition_arn : String) :
    Except PyError String := do
  let task_def ← pyIndex (api.taskDefinition task_definition_arn).containerDefinitions 0
  pyIndex ((pySplitChar '/' task_def.image.data).map List.asString) 1

/-- `ECSEventIterator.__next__` as a function of the `_done` latch: raises
`StopIteration` once done (before any client call); otherwise fetches the
PRIMARY deployment and its release image, raises `ImageDoesNotMatchError` on
an image mismatch, and returns `InProgress` or — setting the latch — `Done`
according to `runningCount == desiredCount`.  The second component is the
trace of ECS client calls performed. -/
def ecs_next (component version : String) (done : Bool) (api : EcsApi) :
    Except PyError (ECSEvent × Bool) × List EcsCall :=
  if done then (.error .stopIteration, [])
  else
    match _get_primary_deployment api with
    | .error e => (.error e, [.describeServices])
    | .ok d =>
        let calls := [.describeServices, .describeTaskDefinition d.taskDefinition]
        match _get_release_image api d.taskDefinition with
        | .error e => (.error e, calls)
        | .ok release_image =>
            if release_image ≠ component ++ ":" ++ version then
              (.error .imageDoesNotMatchError, calls)
            else if d.runningCount ≠ d.desiredCount then
              (.ok (.inProgress d.runningCount d.desiredCount, false), calls)
            else
              (.ok (.done d.runningCount d.desiredCount, true), calls)

/-- How a finite polling run ended: the iterator reported `StopIteration`, an
exception was raised, or the caller's poll budget ran out. -/
inductive RunEnd where
  | stopped
  | errored (e : PyError)
  | fuelOut
  deriving DecidableEq, Repr

/-- Iterating the monitor as a caller does (`for event in iterator`): the
API responses may differ per poll (`apis k` is the world at poll `k`); the
`Nat` fuel is the caller's poll budget.  Returns the produced events and how
the run ended. -/
def runIter (apis : Nat → EcsApi) (component version : String) :
    Nat → Nat → Bool → List ECSEvent × RunEnd
  | _, 0, _ => ([], .fuelOut)
  | k, fuel + 1, done =>
      match (ecs_next component version done (apis k)).1 with
      | .error .stopIteration => ([], .stopped)
      | .error e => ([], .errored e)
      | .ok (ev, done2) =>
          let r := runIter apis component version (k + 1) fuel done2
          (ev :: r.1, r.2)

/-- Every event before the last one is an `InProgress` event. -/
def shapeOk : List ECSEvent → Bool
  | [] => true
  | [_] => true
  | e :: e2 :: rest => !e.doneFlag && shapeOk (e2 :: rest)

/-- C7: for every environment/component pair whose joined name
`environment-component` exceeds 32 code points, `build_service_name` returns
the first 24 characters of that name, then the literal `tf`, then the first 4
hex characters of the SHA-1 of the full uncollapsed name; the result has at
most 32 characters.  (Determinism in the pair is definitional: the function
is pure.) -/
theorem build_service_name_collapse (environment component : String)
    (h : (environment ++ "-" ++ component).length > 32) :
    build_service_name environment component =
      ((environment ++ "-" ++ component).data.take 24 ++
        't' :: 'f' :: (sha1hex (environment ++ "-" ++ component)).take 4).asString ∧
    (build_service_name environment component).length ≤ 32 := by
  have heq : build_service_name environment component =
      ((environment ++ "-" ++ component).data.take 24 ++
        't' :: 'f' :: (sha1hex (environment ++ "-" ++ component)).take 4).asString := by
    show (if (environment ++ "-" ++ component).length > 32 then
        ((environment ++ "-" ++ component).data.take 24 ++
          't' :: 'f' :: (sha1hex (environment ++ "-" ++ component)).take 4).asString
      else environment ++ "-" ++ component) = _
    rw [if_pos h]
  refine ⟨heq, ?_⟩
  rw [heq]
  show (((environment ++ "-" ++ component).data.take 24 ++
    't' :: 'f' :: (sha1hex (environment ++ "-" ++ component)).take 4).asString).data.length ≤ 32
  have hdata : (((environment ++ "-" ++ component).data.take 24 ++
      't' :: 'f' :: (sha1hex (environment ++ "-" ++ component)).take 4).asString).data =
      (environment ++ "-" ++ component).data.take 24 ++
        't' :: 'f' :: (sha1hex (environment ++ "-" ++ component)).take 4 := rfl
  rw [hdata]
  simp only [List.length_append, List.length_cons, List.length_take]
  omega

/-- Witness for `build_service_name_collapse` at concrete input. -/
theorem build_service_name_collapse_witness :
    ("live" ++ "-" ++ "averyveryverylongcomponentname").length > 32 ∧
    (build_service_name "live" "averyveryverylongcomponentname").length ≤ 32 :=
  ⟨by decide,
   (build_service_name_collapse "live" "averyveryverylongcomponentname" (by decide)).2⟩

/-- C5: on a poll before the done latch is set, with a PRIMARY deployment
found and its release image extracted — a mismatched image raises
`ImageDoesNotMatchError` and returns no event (whatever the counts); a
matching image returns `InProgress(running, desired)` when the counts differ
and `Done(running, desired)` (latching) when they agree. -/
theorem ecs_next_event_classification
    (api : EcsApi) (component version : String) (d : EcsDeployment)
    (release_image : String)
    (hd : _get_primary_deployment api = .ok d)
    (hi : _get_release_image api d.taskDefinition = .ok release_image) :
    (release_image ≠ component ++ ":" ++ version →
      (ecs_next component version false api).1 = .error .imageDoesNotMatchError) ∧
    (release_image = component ++ ":" ++ version →
      d.runningCount ≠ d.desiredCount →
      (ecs_next component version false api).1 =
        .ok (.inProgress d.runningCount d.desiredCount, false)) ∧
    (release_image = component ++ ":" ++ version →
      d.runningCount = d.desiredCount →
      (ecs_next component version false api).1 =
        .ok (.done d.runningCount d.desiredCount, true)) := by
  refine ⟨?_, ?_, ?_⟩
  · intro h1
    simp [ecs_next, hd, hi, h1]
  · intro h1 h2
    simp [ecs_next, hd, hi, h1, h2]
  · intro h1 h2
    simp [ecs_next, hd, hi, h1, h2]

/-- Concrete ECS responses: one service with one PRIMARY deployment at 3/3
running the image `registry.example.com/svc:1.2.3`. -/
def c5Api : EcsApi where
  services := [⟨[⟨"PRIMARY", "arn:task", 3, 3⟩]⟩]
  taskDefinition := fun _ => ⟨[⟨"registry.example.com/svc:1.2.3"⟩]⟩

/-- Witness for `ecs_next_event_classification` at concrete input. -/
theorem ecs_next_event_classification_witness :
    _get_primary_deployment c5Api = .ok ⟨"PRIMARY", "arn:task", 3, 3⟩ ∧
    (ecs_next "svc" "1.2.3" false c5Api).1 = .ok (.done 3 3, true) :=
  ⟨by decide,
   (ecs_next_event_classification c5Api "svc" "1.2.3"
     ⟨"PRIMARY", "arn:task", 3, 3⟩
     "svc:1.2.3" (by decide) (by decide)).2.2 rfl rfl⟩

/-- C10: on a poll before the done latch is set, an empty `services` list, or
a service whose deployments contain no PRIMARY entry, surfaces as a raised
`IndexError` (from the bare `[0]` subscripts), not as a domain error or an
event. -/
theorem ecs_next_missing_primary_index_error
    (api : EcsApi) (component version : String) :
    (api.services = [] →
      (ecs_next component version false api).1 = .error .indexError) ∧
    (∀ s, api.services[0]? = some s →
      s.deployments.filter (fun d => d.status == "PRIMARY") = [] →
      (ecs_next component version false api).1 = .error .indexError) := by
  constructor
  · intro hs
    simp [ecs_next, _get_primary_deployment, pyIndex, hs,
      Bind.bind, Except.bind]
  · intro s hs hfilter
    simp [ecs_next, _get_primary_deployment, pyIndex, hs, hfilter,
      Bind.bind, Except.bind]

/-- Concrete ECS responses: the service exists but has no PRIMARY
deployment. -/
def c10Api : EcsApi where
  services := [⟨[⟨"ACTIVE", "arn:task", 1, 3⟩]⟩]
  taskDefinition := fun _ => ⟨[]⟩

/-- Witness for `ecs_next_missing_primary_index_error` at concrete input. -/
theorem ecs_next_missing_primary_index_error_witness :
    (ecs_next "svc" "1.2.3" false c10Api).1 = .error .indexError :=
  (ecs_next_missing_primary_index_error c10Api "svc" "1.2.3").2
    ⟨[⟨"ACTIVE", "arn:task", 1, 3⟩]⟩ (by decide) (by decide)

/-- `pyIndex` only ever raises `IndexError`. -/
theorem pyIndex_error {α : Type} (l : List α) (i : Nat) (e : PyError)
    (h : pyIndex l i = .error e) : e = .indexError := by
  unfold pyIndex at h
  cases hl : l.get? i with
  | none =>
      rw [hl] at h
      cases h
      rfl
  | some x =>
      rw [hl] at h
      exact Except.noConfusion h

/-- `_get_primary_deployment` only ever raises `IndexError`. -/
theorem _get_primary_deployment_error (api : EcsApi) (e : PyError)
    (h : _get_primary_deployment api = .error e) : e = .indexError := by
  unfold _get_primary_deployment at h
  cases h1 : pyIndex api.services 0 with
  | error e1 =>
      rw [h1] at h
      simp only [Bind.bind, Except.bind] at h
      cases h
      exact pyIndex_error _ _ _ h1
  | ok svc =>
      rw [h1] at h
      simp only [Bind.bind, Except.bind] at h
      exact pyIndex_error _ _ _ h

/-- `_get_release_image` only ever raises `IndexError`. -/
theorem _get_release_image_error (api : EcsApi) (arn : String) (e : PyError)
    (h : _get_release_image api arn = .error e) : e = .indexError := by
  unfold _get_release_image at h
  cases h1 : pyIndex (api.taskDefinition arn).containerDefinitions 0 with
  | error e1 =>
      rw [h1] at h
      simp only [Bind.bind, Except.bind] at h
      cases h
      exact pyIndex_error _ _ _ h1
  | ok td =>
      rw [h1] at h
      simp only [Bind.bind, Except.bind] at h
      exact pyIndex_error _ _ _ h

/-- A poll before the done latch never raises `StopIteration`. -/
theorem ecs_next_false_not_stop (component version : String) (api : EcsApi) :
    (ecs_next component version false api).1 ≠ .error .stopIteration := by
  unfold ecs_next
  simp only [Bool.false_eq_true, if_false]
  cases hd : _get_primary_deployment api with
  | error e =>
      have he := _get_primary_deployment_error api e hd
      subst he
      simp
  | ok d =>
      simp only []
      cases hi : _get_release_image api d.taskDefinition with
      | error e =>
          have he := _get_release_image_error api d.taskDefinition e hi
          subst he
          simp [hi]
      | ok img =>
          simp only [hi]
          split
          all_goals try split
          all_goals simp

/-- A successful poll returns an event whose `done` flag equals the new value
of the iterator's `_done` latch. -/
theorem ecs_next_ok_done_flag (component version : String) (done : Bool)
    (api : EcsApi) (ev : ECSEvent) (d2 : Bool)
    (h : (ecs_next component version done api).1 = .ok (ev, d2)) :
    ev.doneFlag = d2 := by
  unfold ecs_next at h
  split at h
  · simp at h
  · split at h
    · simp at h
    · split at h
      · simp at h
      · split at h
        · simp at h
        · split at h
          · simp only [Prod.fst] at h
            cases h
            rfl
          · simp only [Prod.fst] at h
            cases h
            rfl

/-- After the done latch is set, the iterator stops immediately: the run
produces no events and reports normal termination (given any poll budget). -/
theorem runIter_done (apis : Nat → EcsApi) (component version : String)
    (fuel k : Nat) (hf : 0 < fuel) :
    runIter apis component version k fuel true = ([], .stopped) := by
  cases fuel with
  | zero => omega
  | succ n => simp [runIter, ecs_next]

/-- One unfolding of `runIter` when the poll raises `StopIteration`. -/
theorem runIter_step_stop (apis : Nat → EcsApi) (component version : String)
    (k n : Nat) (done : Bool)
    (h : (ecs_next component version done (apis k)).1 = .error .stopIteration) :
    runIter apis component version k (n + 1) done = ([], .stopped) := by
  conv_lhs => rw [runIter]
  rw [h]

/-- One unfolding of `runIter` when the poll raises another exception. -/
theorem runIter_step_err (apis : Nat → EcsApi) (component version : String)
    (k n : Nat) (done : Bool) (e : PyError)
    (h : (ecs_next component version done (apis k)).1 = .error e)
    (hne : e ≠ .stopIteration) :
    runIter apis component version k (n + 1) done = ([], .errored e) := by
  conv_lhs => rw [runIter]
  rw [h]
  cases e <;> first | rfl | exact absurd rfl hne

/-- One unfolding of `runIter` when the poll returns an event. -/
theorem runIter_step_ok (apis : Nat → EcsApi) (component version : String)
    (k n : Nat) (done : Bool) (ev : ECSEvent) (done2 : Bool)
    (h : (ecs_next component version done (apis k)).1 = .ok (ev, done2)) :
    runIter apis component version k (n + 1) done =
      (ev :: (runIter apis component version (k + 1) n done2).1,
       (runIter apis component version (k + 1) n done2).2) := by
  conv_lhs => rw [runIter]
  rw [h]

/-- `shapeOk` holds of a cons whose head is not a `Done` event and whose tail
satisfies `shapeOk`. -/
theorem shapeOk_cons (e : ECSEvent) (l : List ECSEvent)
    (he : e.doneFlag = false) (hl : shapeOk l = true) :
    shapeOk (e :: l) = true := by
  cases l with
  | nil => rfl
  | cons e2 rest => simp [shapeOk, he, hl]

/-- C6: the monitor's event stream is terminal in `Done` — once the latch is
set a poll raises `StopIteration` immediately with no client calls; a
successful poll sets the latch exactly when it returns a `Done` event; and
every finite run starting before the latch produces a sequence in which every
event but the last is `InProgress`, ending (on normal `StopIteration`
termination) with exactly one `Done` event. -/
theorem ecs_iterator_terminal_done (apis : Nat → EcsApi)
    (component version : String) :
    (∀ api, ecs_next component version true api = (.error .stopIteration, [])) ∧
    (∀ fuel k, 0 < fuel →
      runIter apis component version k fuel true = ([], .stopped)) ∧
    (∀ fuel k,
      shapeOk (runIter apis component version k fuel false).1 = true ∧
      ((runIter apis component version k fuel false).2 = .stopped →
        ∃ pre r d, (runIter apis component version k fuel false).1 =
          pre ++ [.done r d])) := by
  refine ⟨fun api => rfl, runIter_done apis component version, ?_⟩
  intro fuel
  induction fuel with
  | zero =>
      intro k
      simp [runIter, shapeOk]
  | succ n ih =>
      intro k
      cases hnext : (ecs_next component version false (apis k)).1 with
      | error e =>
          have hne : e ≠ .stopIteration := by
            intro he
            subst he
            exact ecs_next_false_not_stop component version (apis k) hnext
          have hstep := runIter_step_err apis component version k n false e hnext hne
          rw [hstep]
          simp [shapeOk]
      | ok evd =>
          obtain ⟨ev, done2⟩ := evd
          have hflag := ecs_next_ok_done_flag component version false (apis k)
            ev done2 hnext
          have hstep := runIter_step_ok apis component version k n false ev done2 hnext
          cases done2 with
          | false =>
              have hrec := ih (k + 1)
              rw [hstep]
              constructor
              · exact shapeOk_cons ev _ hflag hrec.1
              · intro hstop
                obtain ⟨pre, r, d, hpre⟩ := hrec.2 hstop
                exact ⟨ev :: pre, r, d, by simp [hpre]⟩
          | true =>
              have hev : ∃ r d, ev = .done r d := by
                cases ev with
                | done r d => exact ⟨r, d, rfl⟩
                | inProgress r d => simp [ECSEvent.doneFlag] at hflag
              obtain ⟨r, d, hev⟩ := hev
              subst hev
              rw [hstep]
              cases n with
              | zero =>
                  constructor
                  · simp [runIter, shapeOk]
                  · simp [runIter]
              | succ m =>
                  have hdone := runIter_done apis component version (m + 1)
                    (k + 1) (by omega)
                  rw [hdone]
                  constructor
                  · simp [shapeOk]
                  · intro _
                    exact ⟨[], r, d, by simp⟩

/-- Concrete ECS responses for a completed deployment (running 3 of 3 with
the expected image). -/
def c6Api : EcsApi where
  services := [⟨[⟨"PRIMARY", "arn:task", 3, 3⟩]⟩]
  taskDefinition := fun _ => ⟨[⟨"registry.example.com/svc:1.2.3"⟩]⟩

/-- Witness for `ecs_iterator_terminal_done` at concrete input: a three-poll
budget yields exactly one `Done` event then normal termination. -/
theorem ecs_iterator_terminal_done_witness :
    runIter (fun _ => c6Api) "svc" "1.2.3" 0 3 false = ([.done 3 3], .stopped) ∧
    (0 < 2 ∧ runIter (fun _ => c6Api) "svc" "1.2.3" 7 2 true = ([], .stopped)) ∧
    shapeOk (runIter (fun _ => c6Api) "svc" "1.2.3" 0 3 false).1 = true :=
  ⟨by decide,
   ⟨by decide,
    (ecs_iterator_terminal_done (fun _ => c6Api) "svc" "1.2.3").2.1 2 7 (by decide)⟩,
   ((ecs_iterator_terminal_done (fun _ => c6Api) "svc" "1.2.3").2.2 3 0).1⟩

/-! ### `cdflow_commands.account` — `AccountScheme`

A Python dict is embedded as an association list with last-key-wins lookup;
`defaultdict(lambda: default_env, mapping)` becomes the mapping together with
an optional default consulted on lookup miss.  `accounts[alias]` subscripting
raises `KeyError` on a missing alias. -/

/-- `account.Account` (alias, id, role). -/
structure Account where
  «alias» : String
  id : String
  role : String
  deriving DecidableEq, Repr

/-- Python dict `.get` over an association list (later keys win). -/
def pyDictGetAccount (pairs : List (String × Account)) (k : String) : Option Account :=
  (pairs.reverse.find? (fun p => p.1 == k)).map (·.2)

/-- Python dict subscripting `d[k]`: `KeyError` on a miss. -/
def pyDictGetItemAccount (pairs : List (String × Account)) (k : String) :
    Except PyError Account :=
  match pyDictGetAccount pairs k with
  | some a => .ok a
  | none => .error (.keyError k)

/-- The environment mapping built by `AccountScheme._get_env_mapping`: the
explicit `environment → Account` entries, plus the `defaultdict` default
present when the raw scheme's environments carry a truthy `'*'` key. -/
structure EnvironmentMapping where
  entries : List (String × Account)
  dflt : Option Account
  deriving DecidableEq, Repr

/-- `AccountScheme._get_env_mapping`: read the `'*'` alias with `.get`, map
every raw environment entry through `accounts[alias]` (a miss raises
`KeyError`), and when the `'*'` alias is truthy wrap the mapping in a
`defaultdict` returning `accounts[default_env_alias]`. -/
def _get_env_mapping (rawEnvironments : List (String × String))
    (accounts : List (String × Account)) : Except PyError EnvironmentMapping := do
  let default_env_alias := pyDictGet rawEnvironments "*"
  let entries ← rawEnvironments.mapM (fun p => do
    let a ← pyDictGetItemAccount accounts p.2
    pure (p.1, a))
  match default_env_alias with
  | some als =>
      if als ≠ "" then do
        let default_env ← pyDictGetItemAccount accounts als
        pure ⟨entries, some default_env⟩
      else
        pure ⟨entries, none⟩
  | none => pure ⟨entries, none⟩

/-- `AccountScheme.account_for_environment`:
`self._environment_mapping[environment]` — the explicit entry if present,
else the `defaultdict` default if present, else a `KeyError`. -/
def account_for_environment (m : EnvironmentMapping) (environment : String) :
    Except PyError Account :=
  match pyDictGetAccount m.entries environment with
  | some a => .ok a
  | none =>
      match m.dflt with
      | some d => .ok d
      | none => .error (.keyError environment)

/-- C9 (amended): lookup returns the explicitly mapped account for every
environment present in the mapping; an environment with no explicit entry
gets the wildcard default when `_get_env_mapping` installed one (so lookup
never fails in that case); with no wildcard default the lookup fails with
Python's built-in `KeyError` (no `UnknownEnvironmentError` exists in
`cdflow_commands.account`). -/
theorem account_for_environment_lookup
    (rawEnvironments : List (String × String))
    (accounts : List (String × Account)) (m : EnvironmentMapping)
    (hm : _get_env_mapping rawEnvironments accounts = .ok m) :
    (∀ env a, pyDictGetAccount m.entries env = some a →
      account_for_environment m env = .ok a) ∧
    (∀ env d, pyDictGetAccount m.entries env = none → m.dflt = some d →
      account_for_environment m env = .ok d) ∧
    (∀ env, pyDictGetAccount m.entries env = none → m.dflt = none →
      account_for_environment m env = .error (.keyError env)) ∧
    (∀ als d, pyDictGet rawEnvironments "*" = some als → als ≠ "" →
      pyDictGetItemAccount accounts als = .ok d → m.dflt = some d) := by
  refine ⟨?_, ?_, ?_, ?_⟩
  · intro env a ha
    simp [account_for_environment, ha]
  · intro env d ha hd
    simp [account_for_environment, ha, hd]
  · intro env ha hd
    simp [account_for_environment, ha, hd]
  · intro als d halias hne hitem
    unfold _get_env_mapping at hm
    rw [halias] at hm
    cases hmap : rawEnvironments.mapM (fun p => do
        let a ← pyDictGetItemAccount accounts p.2
        pure (p.1, a)) with
    | error e =>
        rw [hmap] at hm
        simp [Bind.bind, Except.bind] at hm
    | ok entries =>
        rw [hmap] at hm
        simp only [Bind.bind, Except.bind] at hm
        rw [if_pos hne] at hm
        rw [hitem] at hm
        simp only [Bind.bind, Except.bind, pure, Except.pure] at hm
        cases hm
        rfl

/-- Concrete scheme: one explicit environment, no wildcard. -/
def c9RawEnvironments : List (String × String) := [("live", "prod")]

/-- Concrete accounts for the C9 scenario. -/
def c9Accounts : List (String × Account) :=
  [("prod", ⟨"prod", "123456789", "admin"⟩)]

/-- C9 counterexample: with no wildcard default, looking up an unmapped
environment raises Python's `KeyError`, not an `UnknownEnvironmentError`. -/
theorem account_unknown_environment_counterexample :
    _get_env_mapping c9RawEnvironments c9Accounts =
      .ok ⟨[("live", ⟨"prod", "123456789", "admin"⟩)], none⟩ ∧
    account_for_environment ⟨[("live", ⟨"prod", "123456789", "admin"⟩)], none⟩ "qa" =
      .error (.keyError "qa") ∧
    account_for_environment ⟨[("live", ⟨"prod", "123456789", "admin"⟩)], none⟩ "qa" ≠
      .error .unknownEnvironmentError := by
  refine ⟨by decide, by decide, by decide⟩

/-- Concrete scheme with a wildcard default for the C9 witness. -/
def c9WildcardRawEnvironments : List (String × String) :=
  [("live", "prod"), ("*", "dev")]

/-- Concrete accounts including the wildcard target. -/
def c9WildcardAccounts : List (String × Account) :=
  [("prod", ⟨"prod", "123456789", "admin"⟩), ("dev", ⟨"dev", "987654321", "admin"⟩)]

/-- Witness for `account_for_environment_lookup` at concrete input: the
explicit entry wins, the wildcard default serves unmapped environments, and
the constructed mapping carries the wildcard account as its default. -/
theorem account_for_environment_lookup_witness :
    account_for_environment
        ⟨[("live", ⟨"prod", "123456789", "admin"⟩), ("*", ⟨"dev", "987654321", "admin"⟩)],
         some ⟨"dev", "987654321", "admin"⟩⟩ "live" = .ok ⟨"prod", "123456789", "admin"⟩ ∧
    account_for_environment
        ⟨[("live", ⟨"prod", "123456789", "admin"⟩), ("*", ⟨"dev", "987654321", "admin"⟩)],
         some ⟨"dev", "987654321", "admin"⟩⟩ "qa" = .ok ⟨"dev", "987654321", "admin"⟩ ∧
    (⟨[("live", ⟨"prod", "123456789", "admin"⟩), ("*", ⟨"dev", "987654321", "admin"⟩)],
      some ⟨"dev", "987654321", "admin"⟩⟩ : EnvironmentMapping).dflt =
        some ⟨"dev", "987654321", "admin"⟩ :=
  ⟨(account_for_environment_lookup c9WildcardRawEnvironments c9WildcardAccounts
      _ (by decide)).1 "live" ⟨"prod", "123456789", "admin"⟩ (by decide),
   (account_for_environment_lookup c9WildcardRawEnvironments c9WildcardAccounts
      _ (by decide)).2.1 "qa" ⟨"dev", "987654321", "admin"⟩ (by decide) rfl,
   (account_for_environment_lookup c9WildcardRawEnvironments c9WildcardAccounts
      _ (by decide)).2.2.2 "dev" ⟨"dev", "987654321", "admin"⟩ (by decide) (by decide)
      (by decide)⟩

/-! ### `cdflow_commands.state.migrate_state` (modelled from the spec)

`cdflow_commands/state.py` is not part of the sources here (only its tests
are), so the migrator is modelled from the specification: per environment,
check the migration marker at the destination path and skip when present;
otherwise read the legacy object (skip silently when absent); otherwise copy
its bytes to the destination key and write the `"1"` marker strictly after
the copy.  The object store is a list of `((bucket, key), object)` writes,
newest first; copies stamp the current time `now`. -/

/-- A stored object: body bytes and last-modified time. -/
structure S3Object where
  body : String
  lastModified : Nat
  deriving DecidableEq, Repr

/-- The object store, newest writes first. -/
abbrev S3World : Type := List ((String × String) × S3Object)

/-- Read an object (the newest write at the bucket/key wins). -/
def getObject (w : S3World) (bucket key : String) : Option S3Object :=
  (w.find? (fun e => e.1 == (bucket, key))).map (·.2)

/-- Write an object with last-modified time `now`. -/
def putObject (w : S3World) (bucket key body : String) (now : Nat) : S3World :=
  ((bucket, key), ⟨body, now⟩) :: w

/-- Modelled from the spec: the new scheme's state key
`<team>/<component>/<environment>/terraform.tfstate`. -/
def new_state_key (team component environment : String) : String :=
  team ++ "/" ++ component ++ "/" ++ environment ++ "/terraform.tfstate"

/-- Modelled from the spec: the migration marker key
`<team>/<component>/<environment>/MIGRATED`. -/
def migration_marker_key (team component environment : String) : String :=
  team ++ "/" ++ component ++ "/" ++ environment ++ "/MIGRATED"

/-- Modelled from the spec: the legacy flat-layout state key
`<environment>/<component>/terraform.tfstate`. -/
def old_state_key (component environment : String) : String :=
  environment ++ "/" ++ component ++ "/terraform.tfstate"

/-- Network writes the migrator can perform. -/
inductive MigAction where
  | copyObject (bucket key : String)
  | putMarker (bucket key : String)
  deriving DecidableEq, Repr

/-- Modelled from the spec: one environment's migration step — skip when the
destination marker exists; skip silently when the legacy object is absent;
otherwise copy the legacy body to the destination key and then write the
marker `"1"`.  Also returns the writes performed. -/
def migrate_env (oldBucket newBucket team component : String) (now : Nat)
    (environment : String) (w : S3World) : S3World × List MigAction :=
  if (getObject w newBucket (migration_marker_key team component environment)).isSome then
    (w, [])
  else
    match getObject w oldBucket (old_state_key component environment) with
    | none => (w, [])
    | some obj =>
        let w1 := putObject w newBucket (new_state_key team component environment)
          obj.body now
        let w2 := putObject w1 newBucket (migration_marker_key team component environment)
          "1" now
        (w2, [.copyObject newBucket (new_state_key team component environment),
              .putMarker newBucket (migration_marker_key team component environment)])

/-- Modelled from the spec: `migrate_state` runs the per-environment step for
every environment of the account scheme, in order. -/
def migrate_state (oldBucket newBucket team component : String) (now : Nat) :
    List String → S3World → S3World × List MigAction
  | [], w => (w, [])
  | environment :: envs, w =>
      let r := migrate_env oldBucket newBucket team component now environment w
      let r2 := migrate_state oldBucket newBucket team component now envs r.1
      (r2.1, r.2 ++ r2.2)

/-- Strings ending in distinct literal suffixes differ: the reversed data of
`p ++ "/MIGRATED"` starts with `'D'`. -/
theorem marker_key_last_char (p : String) :
    (p ++ "/MIGRATED").data.reverse.head? = some 'D' := by
  rw [String.data_append, List.reverse_append, List.head?_append]
  rfl

/-- The reversed data of `p ++ "/terraform.tfstate"` starts with `'e'`. -/
theorem state_key_last_char (p : String) :
    (p ++ "/terraform.tfstate").data.reverse.head? = some 'e' := by
  rw [String.data_append, List.reverse_append, List.head?_append]
  rfl

/-- A migration marker key never equals a state key (their last characters
differ). -/
theorem migration_marker_key_ne_state_key (t c e t2 c2 e2 : String) :
    migration_marker_key t c e ≠ new_state_key t2 c2 e2 := by
  intro h
  have h1 := marker_key_last_char (t ++ "/" ++ c ++ "/" ++ e)
  have h2 := state_key_last_char (t2 ++ "/" ++ c2 ++ "/" ++ e2)
  rw [show migration_marker_key t c e = (t ++ "/" ++ c ++ "/" ++ e) ++ "/MIGRATED" from rfl] at h
  rw [show new_state_key t2 c2 e2 = (t2 ++ "/" ++ c2 ++ "/" ++ e2) ++ "/terraform.tfstate" from rfl] at h
  rw [h] at h1
  rw [h1] at h2
  cases h2

/-- A migration marker key never equals a legacy state key. -/
theorem migration_marker_key_ne_old_key (t c e c2 e2 : String) :
    migration_marker_key t c e ≠ old_state_key c2 e2 := by
  intro h
  have h1 := marker_key_last_char (t ++ "/" ++ c ++ "/" ++ e)
  have h2 := state_key_last_char (e2 ++ "/" ++ c2)
  rw [show migration_marker_key t c e = (t ++ "/" ++ c ++ "/" ++ e) ++ "/MIGRATED" from rfl] at h
  rw [show old_state_key c2 e2 = (e2 ++ "/" ++ c2) ++ "/terraform.tfstate" from rfl] at h
  rw [h] at h1
  rw [h1] at h2
  cases h2

/-- The marker key determines the environment (team and component fixed). -/
theorem migration_marker_key_inj (t c e1 e2 : String)
    (h : migration_marker_key t c e1 = migration_marker_key t c e2) : e1 = e2 := by
  have h' := congrArg String.data h
  simp only [migration_marker_key, String.data_append, List.append_assoc] at h'
  have h2 := List.append_cancel_left (List.append_cancel_left
    (List.append_cancel_left (List.append_cancel_left h')))
  exact String.ext (List.append_cancel_right h2)

/-- The state key determines the environment (team and component fixed). -/
theorem new_state_key_inj (t c e1 e2 : String)
    (h : new_state_key t c e1 = new_state_key t c e2) : e1 = e2 := by
  have h' := congrArg String.data h
  simp only [new_state_key, String.data_append, List.append_assoc] at h'
  have h2 := List.append_cancel_left (List.append_cancel_left
    (List.append_cancel_left (List.append_cancel_left h')))
  exact String.ext (List.append_cancel_right h2)

/-- Reading after a write: the write shadows exactly its own bucket/key. -/
theorem getObject_put (w : S3World) (b k body : String) (now : Nat)
    (b2 k2 : String) :
    getObject (putObject w b k body now) b2 k2 =
      if (b, k) = (b2, k2) then some ⟨body, now⟩ else getObject w b2 k2 := by
  by_cases h : (b, k) = (b2, k2)
  · simp [getObject, putObject, List.find?, h]
  · have hb : ((b, k) == (b2, k2)) = false := beq_eq_false_iff_ne.mpr h
    simp [getObject, putObject, List.find?, hb, h]

/-- Writes never erase: a present object stays present. -/
theorem getObject_put_isSome (w : S3World) (b k body : String) (now : Nat)
    (b2 k2 : String) (h : (getObject w b2 k2).isSome) :
    (getObject (putObject w b k body now) b2 k2).isSome := by
  rw [getObject_put]
  split
  · rfl
  · exact h

/-- A present object stays present through one environment's step. -/
theorem migrate_env_mono (oldB newB t c : String) (now : Nat) (e : String)
    (w : S3World) (b2 k2 : String) (h : (getObject w b2 k2).isSome) :
    (getObject (migrate_env oldB newB t c now e w).1 b2 k2).isSome := by
  unfold migrate_env
  split
  · exact h
  · cases hold : getObject w oldB (old_state_key c e) with
    | none => simpa using h
    | some obj =>
        simp only [hold]
        exact getObject_put_isSome _ _ _ _ _ _ _
          (getObject_put_isSome _ _ _ _ _ _ _ h)

/-- One environment's step either does nothing, or (marker absent, legacy
present) writes the destination object and then the marker. -/
theorem migrate_env_cases (oldB newB t c : String) (now : Nat) (e : String)
    (w : S3World) :
    migrate_env oldB newB t c now e w = (w, []) ∨
    ((getObject w newB (migration_marker_key t c e)).isSome = false ∧
     ∃ obj, getObject w oldB (old_state_key c e) = some obj ∧
       migrate_env oldB newB t c now e w =
         (putObject (putObject w newB (new_state_key t c e) obj.body now) newB
            (migration_marker_key t c e) "1" now,
          [.copyObject newB (new_state_key t c e),
           .putMarker newB (migration_marker_key t c e)])) := by
  unfold migrate_env
  split
  · exact Or.inl rfl
  · next hmark =>
      cases hold : getObject w oldB (old_state_key c e) with
      | none => exact Or.inl (by simp [hold])
      | some obj =>
          exact Or.inr ⟨by simpa using hmark, obj, rfl, by simp [hold]⟩

/-- While the destination marker of `env` exists, a `migrate_state` run never
copies to `env`'s destination key, leaves the object there unchanged, keeps
the marker present, and writes no further marker for `env`. -/
theorem migrate_state_skip (oldB newB t c : String) (now : Nat)
    (envs : List String) (env : String) (w : S3World)
    (hm : (getObject w newB (migration_marker_key t c env)).isSome) :
    MigAction.copyObject newB (new_state_key t c env) ∉
      (migrate_state oldB newB t c now envs w).2 ∧
    getObject (migrate_state oldB newB t c now envs w).1 newB
        (new_state_key t c env) =
      getObject w newB (new_state_key t c env) ∧
    (getObject (migrate_state oldB newB t c now envs w).1 newB
      (migration_marker_key t c env)).isSome ∧
    (migrate_state oldB newB t c now envs w).2.count
      (MigAction.putMarker newB (migration_marker_key t c env)) = 0 := by
  induction envs generalizing w with
  | nil => exact ⟨by simp [migrate_state], rfl, hm, by simp [migrate_state]⟩
  | cons e envs ih =>
      rcases migrate_env_cases oldB newB t c now e w with heq |
        ⟨hmark, obj, hold, heq⟩
      · have hrest := ih w hm
        simp only [migrate_state, heq, List.nil_append]
        exact hrest
      · have hene : e ≠ env := by
          intro hcontra
          subst hcontra
          rw [hm] at hmark
          cases hmark
        have hkey1 : (newB, migration_marker_key t c e) ≠
            (newB, new_state_key t c env) := by
          intro hcontra
          exact migration_marker_key_ne_state_key t c e t c env
            (congrArg Prod.snd hcontra)
        have hkey2 : (newB, new_state_key t c e) ≠
            (newB, new_state_key t c env) := by
          intro hcontra
          exact hene (new_state_key_inj t c e env (congrArg Prod.snd hcontra))
        have hm2 : (getObject
            (putObject (putObject w newB (new_state_key t c e) obj.body now) newB
              (migration_marker_key t c e) "1" now) newB
            (migration_marker_key t c env)).isSome :=
          getObject_put_isSome _ _ _ _ _ _ _
            (getObject_put_isSome _ _ _ _ _ _ _ hm)
        have hrest := ih _ hm2
        simp only [migrate_state, heq]
        refine ⟨?_, ?_, hrest.2.2.1, ?_⟩
        · intro hmem
          rcases List.mem_append.mp hmem with hmem | hmem
          · rcases List.mem_cons.mp hmem with hmem | hmem
            · injection hmem with hb hk
              exact hene (new_state_key_inj t c env e hk).symm
            · exact MigAction.noConfusion (List.mem_singleton.mp hmem)
          · exact hrest.1 hmem
        · rw [hrest.2.1, getObject_put, if_neg hkey1, getObject_put, if_neg hkey2]
        · rw [List.count_append, hrest.2.2.2]
          simp only [List.count_cons, List.count_nil]
          simp
          intro hcontra
          exact hene (migration_marker_key_inj t c e env hcontra)

/-- If `env`'s destination marker is absent and its legacy object present, a
`migrate_state` run over environments containing `env` performs the copy once:
afterwards the marker exists and exactly one marker write for `env` was
issued. -/
theorem migrate_state_first (oldB newB t c : String) (now : Nat)
    (envs : List String) (env : String) (w : S3World)
    (hB : oldB ≠ newB)
    (hmark : getObject w newB (migration_marker_key t c env) = none)
    (hold : (getObject w oldB (old_state_key c env)).isSome)
    (henv : env ∈ envs) :
    (getObject (migrate_state oldB newB t c now envs w).1 newB
      (migration_marker_key t c env)).isSome ∧
    (migrate_state oldB newB t c now envs w).2.count
      (MigAction.putMarker newB (migration_marker_key t c env)) = 1 := by
  induction envs generalizing w with
  | nil => cases henv
  | cons e envs ih =>
      by_cases he : e = env
      · subst he
        obtain ⟨obj, hobj⟩ := Option.isSome_iff_exists.mp hold
        have heq : migrate_env oldB newB t c now e w =
            (putObject (putObject w newB (new_state_key t c e) obj.body now) newB
              (migration_marker_key t c e) "1" now,
             [.copyObject newB (new_state_key t c e),
              .putMarker newB (migration_marker_key t c e)]) := by
          unfold migrate_env
          rw [hmark]
          simp [hobj]
        have hm2 : (getObject
            (putObject (putObject w newB (new_state_key t c e) obj.body now) newB
              (migration_marker_key t c e) "1" now) newB
            (migration_marker_key t c e)).isSome := by
          rw [getObject_put, if_pos rfl]
          rfl
        have hskip := migrate_state_skip oldB newB t c now envs e _ hm2
        simp only [migrate_state, heq]
        refine ⟨hskip.2.2.1, ?_⟩
        rw [List.count_append, hskip.2.2.2]
        simp
      · have henv2 : env ∈ envs := by
          rcases List.mem_cons.mp henv with hcontra | h
          · exact absurd hcontra.symm he
          · exact h
        rcases migrate_env_cases oldB newB t c now e w with heq |
          ⟨hmarkF, obj, holdE, heq⟩
        · have hrest := ih w hmark hold henv2
          simp only [migrate_state, heq, List.nil_append]
          exact hrest
        · have hkeyA : (newB, new_state_key t c e) ≠
              (newB, migration_marker_key t c env) := by
            intro hcontra
            exact migration_marker_key_ne_state_key t c env t c e
              (congrArg Prod.snd hcontra).symm
          have hkeyB : (newB, migration_marker_key t c e) ≠
              (newB, migration_marker_key t c env) := by
            intro hcontra
            exact he (migration_marker_key_inj t c e env
              (congrArg Prod.snd hcontra))
          have hmark2 : getObject
              (putObject (putObject w newB (new_state_key t c e) obj.body now) newB
                (migration_marker_key t c e) "1" now) newB
              (migration_marker_key t c env) = none := by
            rw [getObject_put, if_neg hkeyB, getObject_put, if_neg hkeyA]
            exact hmark
          have hold2 : (getObject
              (putObject (putObject w newB (new_state_key t c e) obj.body now) newB
                (migration_marker_key t c e) "1" now) oldB
              (old_state_key c env)).isSome := by
            have hbkt1 : (newB, migration_marker_key t c e) ≠
                (oldB, old_state_key c env) := by
              intro hcontra
              exact hB (congrArg Prod.fst hcontra).symm
            have hbkt2 : (newB, new_state_key t c e) ≠
                (oldB, old_state_key c env) := by
              intro hcontra
              exact hB (congrArg Prod.fst hcontra).symm
            rw [getObject_put, if_neg hbkt1, getObject_put, if_neg hbkt2]
            exact hold
          have hrest := ih _ hmark2 hold2 henv2
          simp only [migrate_state, heq]
          refine ⟨hrest.1, ?_⟩
          rw [List.count_append, hrest.2]
          have hne1 : ¬ MigAction.copyObject newB (new_state_key t c e) =
              MigAction.putMarker newB (migration_marker_key t c env) := by
            intro hcontra
            exact MigAction.noConfusion hcontra
          have hne2 : ¬ MigAction.putMarker newB (migration_marker_key t c e) =
              MigAction.putMarker newB (migration_marker_key t c env) := by
            intro hcontra
            injection hcontra with hb hk
            exact he (migration_marker_key_inj t c e env hk)
          simp [List.count_cons, hne1, hne2]

/-- C3 (spec-modelled): `migrate_state` is idempotent per environment — once
an environment's destination marker exists (as after a first run that
migrated it), a further run performs no copy for that environment and leaves
its destination object (body and last-modified time) untouched; and an
environment actually migrated by the first run has its marker written exactly
once across both runs. -/
theorem migrate_state_idempotent
    (oldBucket newBucket team component : String) (envs : List String)
    (environment : String) (w : S3World) (now1 now2 : Nat)
    (hB : oldBucket ≠ newBucket) (henv : environment ∈ envs) :
    ((getObject (migrate_state oldBucket newBucket team component now1 envs w).1
        newBucket (migration_marker_key team component environment)).isSome →
      (MigAction.copyObject newBucket (new_state_key team component environment) ∉
        (migrate_state oldBucket newBucket team component now2 envs
          (migrate_state oldBucket newBucket team component now1 envs w).1).2 ∧
       getObject (migrate_state oldBucket newBucket team component now2 envs
          (migrate_state oldBucket newBucket team component now1 envs w).1).1
          newBucket (new_state_key team component environment) =
        getObject (migrate_state oldBucket newBucket team component now1 envs w).1
          newBucket (new_state_key team component environment))) ∧
    (getObject w newBucket (migration_marker_key team component environment) = none →
     (getObject w oldBucket (old_state_key component environment)).isSome →
      ((getObject (migrate_state oldBucket newBucket team component now1 envs w).1
          newBucket (migration_marker_key team component environment)).isSome ∧
       ((migrate_state oldBucket newBucket team component now1 envs w).2 ++
        (migrate_state oldBucket newBucket team component now2 envs
          (migrate_state oldBucket newBucket team component now1 envs w).1).2).count
          (MigAction.putMarker newBucket
            (migration_marker_key team component environment)) = 1)) := by
  constructor
  · intro hm
    have hs := migrate_state_skip oldBucket newBucket team component now2 envs
      environment _ hm
    exact ⟨hs.1, hs.2.1⟩
  · intro hmark hold
    have hf := migrate_state_first oldBucket newBucket team component now1 envs
      environment w hB hmark hold henv
    have hs := migrate_state_skip oldBucket newBucket team component now2 envs
      environment _ hf.1
    refine ⟨hf.1, ?_⟩
    rw [List.count_append, hf.2, hs.2.2.2]

/-- Concrete store: one legacy object in the old flat bucket. -/
def c3World : S3World :=
  [(("cdflow-tfstate", "qa/svc/terraform.tfstate"), ⟨"qa state", 5⟩)]

/-- Witness for `migrate_state_idempotent` at concrete input: the first run
migrates `qa` and writes the marker; the second run finds it and neither
copies nor touches the destination object; the marker is written once. -/
theorem migrate_state_idempotent_witness :
    (getObject (migrate_state "cdflow-tfstate" "backend-s3-bucket" "team" "svc"
        10 ["qa"] c3World).1 "backend-s3-bucket"
        (migration_marker_key "team" "svc" "qa")).isSome ∧
    ((migrate_state "cdflow-tfstate" "backend-s3-bucket" "team" "svc"
        10 ["qa"] c3World).2 ++
     (migrate_state "cdflow-tfstate" "backend-s3-bucket" "team" "svc" 20 ["qa"]
        (migrate_state "cdflow-tfstate" "backend-s3-bucket" "team" "svc"
          10 ["qa"] c3World).1).2).count
      (MigAction.putMarker "backend-s3-bucket"
        (migration_marker_key "team" "svc" "qa")) = 1 :=
  (migrate_state_idempotent "cdflow-tfstate" "backend-s3-bucket" "team" "svc"
      ["qa"] "qa" c3World 10 20 (by decide) (by decide)).2
    (by decide) (by decide)
